import Mathlib

/-!
Verification of the hermes update-notification system: a shallow embedding of
the daemon-side update status engine (`src/daemon/hermesd.py`) and the
listener-side systray state machine (`src/systray-app/hermes.py`).

External effects (network reachability, `emerge` child processes, pickle
files, the D-Bus bus, Qt timers, the suppression-window file) are modelled by
explicit outcome parameters and state values; the pure decision logic
(URL validation, line parsing, status classification, suppression and
heartbeat handling, GLib source bookkeeping) is transcribed from the Python
source.
-/

/-- Hardcoded fallback endpoint (`Config.DEFAULT_URL` in `hermesd.py`). -/
def DEFAULT_URL : String := "https://gentoo.org"

/-! ### URL validation (`UpdateChecker.is_valid_url`)

The Python code matches the regex
`^(http|https)://([a-zA-Z0-9.-]+)(\.[a-zA-Z]{2,})(:\d+)?(/.*)?$`
against the url.  We transcribe it as an executable matcher over `List Char`:
the character classes are ASCII, `.` matches anything except a newline, and
(as in Python) the trailing anchor also accepts one final newline. -/

/-- `[a-zA-Z0-9.-]` — characters allowed in the first host group. -/
def isHostChar (c : Char) : Bool := c.isAlpha || c.isDigit || c == '.' || c == '-'

/-- The optional `(/.*)?` path group, anchored at end of input. -/
def pathOpt : List Char → Bool
  | [] => true
  | '/' :: rest => rest.all (fun c => decide (c ≠ '\n'))
  | _ => false

/-- The optional `(:\d+)?` port group followed by the optional path group,
anchored at end of input. -/
def portPath (cs : List Char) : Bool :=
  match cs with
  | ':' :: rest =>
    let (ds, rest2) := rest.span Char.isDigit
    !ds.isEmpty && pathOpt rest2
  | cs' => pathOpt cs'

/-- The mandatory `(\.[a-zA-Z]{2,})` group followed by port and path groups,
anchored at end of input. -/
def hostDotTail : List Char → Bool
  | '.' :: rest =>
    let (ls, rest2) := rest.span Char.isAlpha
    decide (2 ≤ ls.length) && portPath rest2
  | _ => false

/-- `([a-zA-Z0-9.-]+)` followed by `hostDotTail`: some nonempty prefix of host
characters such that the remainder matches the dot/port/path tail (this
existential split is exactly the regex engine's backtracking). -/
def hostThen : List Char → Bool
  | [] => false
  | c :: rest => isHostChar c && (hostDotTail rest || hostThen rest)

/-- Python's `$` anchor also matches just before one final newline. -/
def dropTrailingNewline (cs : List Char) : List Char :=
  match cs.getLast? with
  | some '\n' => cs.dropLast
  | _ => cs

/-- `UpdateChecker.is_valid_url`: does the url match the scheme/host/port/path
regex? -/
def is_valid_url (url : String) : Bool :=
  let cs := dropTrailingNewline url.toList
  if ("https://".toList).isPrefixOf cs then hostThen (cs.drop 8)
  else if ("http://".toList).isPrefixOf cs then hostThen (cs.drop 7)
  else false

/-! ### Connectivity probe (`UpdateChecker.check_internet`) -/

/-- Outcome of one `urllib.request.urlopen` attempt against a given url:
the connection succeeds, the server answers with an HTTP error status, or a
transport-level failure (`URLError`, which includes timeouts) occurs. -/
inductive NetOutcome where
  | success : NetOutcome
  | httpError : Nat → NetOutcome
  | urlError : NetOutcome
deriving DecidableEq

/-- The url actually probed: `url if (url and is_valid_url(url)) else
Config.DEFAULT_URL` — `None` and the empty string are falsy in Python. -/
def effective_url (url : Option String) : String :=
  match url with
  | none => DEFAULT_URL
  | some u => if u ≠ "" && is_valid_url u then u else DEFAULT_URL

/-- `UpdateChecker.check_internet`, with the network modelled as a map from
url to outcome.  Returns `1` on success and on every `HTTPError` (both the
429 branch and the catch-all branch return 1), `0` exactly on `URLError`. -/
def check_internet (world : String → NetOutcome) (url : Option String) : Nat :=
  match world (effective_url url) with
  | .success => 1
  | .httpError code => if code = 429 then 1 else 1
  | .urlError => 0

/-! ### Python string helpers shared by the parsers -/

/-- Python's `sub in s` substring test. -/
def containsSub : List Char → List Char → Bool
  | sub, [] => sub.isEmpty
  | sub, c :: rest => sub.isPrefixOf (c :: rest) || containsSub sub rest

/-- Python's `sub in s` on `String`. -/
def containsStr (sub s : String) : Bool := containsSub sub.toList s.toList

/-- The character set stripped by Python's `str.strip()` (ASCII part). -/
def isPyWhitespace (c : Char) : Bool :=
  c == ' ' || c == '\t' || c == '\n' || c == '\r' || c == '\x0b' || c == '\x0c'

/-- Python `str.strip()` on a character list. -/
def pyStrip (cs : List Char) : List Char :=
  ((cs.dropWhile isPyWhitespace).reverse.dropWhile isPyWhitespace).reverse

/-- Python `str.strip()` on a `String`. -/
def pyStripString (s : String) : String := String.mk (pyStrip s.toList)

/-- `.*b` (with `.` excluding newline) matching some prefix of the input:
used to transcribe `re.search` of the two-literal config patterns. -/
def dotStarThen (b : List Char) : List Char → Bool
  | [] => b.isPrefixOf []
  | c :: rest => b.isPrefixOf (c :: rest) || (decide (c ≠ '\n') && dotStarThen b rest)

/-- `re.search(a.*b, s)` for literal fragments `a` and `b`: somewhere in `s`,
`a` occurs, followed (after non-newline filler) by `b`. -/
def searchTwo (a b : List Char) : List Char → Bool
  | [] => a.isPrefixOf [] && dotStarThen b []
  | c :: rest =>
    (a.isPrefixOf (c :: rest) && dotStarThen b ((c :: rest).drop a.length)) ||
      searchTwo a b rest

/-! ### Update probe parsing (`UpdateChecker.check_update`) -/

/-- Does a line match one of the three `config_patterns` regexes?  The middle
pattern is a pure literal; the other two are `literal.*literal`. -/
def configLine (line : String) : Bool :=
  searchTwo "The following ".toList " changes are necessary to proceed".toList
      line.toList ||
    containsStr "REQUIRED_USE flag constraints are unsatisfied" line ||
    searchTwo "masked packages".toList "required to complete your request".toList
      line.toList

/-- Python `str.split(sep)` for a single-character separator. -/
def splitOnChar (sep : Char) : List Char → List (List Char)
  | [] => [[]]
  | c :: rest =>
    if c = sep then [] :: splitOnChar sep rest
    else
      match splitOnChar sep rest with
      | g :: gs => (c :: g) :: gs
      | [] => [[c]]

/-- `p_out.split("]")[1].split("[")[0].strip()`.  `none` models the
`IndexError` raised when the line holds no `]` (which aborts the whole
probe). -/
def extractPkg (line : String) : Option String :=
  match splitOnChar ']' line.toList with
  | _ :: x :: _ =>
    some (String.mk (pyStrip ((splitOnChar '[' x).headD [])))
  | _ => none

/-- The `for p_out in stdout_lines` loop of `check_update`: the `[binary` and
`[ebuild` markers are tested independently on each line; an extraction error
on any line aborts the probe (`none`). -/
def collectUpdates : List String → Option (List String × List String)
  | [] => some ([], [])
  | line :: rest => do
    let binPart ←
      if containsStr "[binary" line then (extractPkg line).map (fun p => [p])
      else some []
    let srcPart ←
      if containsStr "[ebuild" line then (extractPkg line).map (fun p => [p])
      else some []
    let (brest, srest) ← collectUpdates rest
    return (binPart ++ brest, srcPart ++ srest)

/-- `UpdateChecker.check_update` parsing: from the dry-run's stdout and
stderr lines, the binary list, source list and `need_cfg` flag that are
pickled to `WORLDDEPS_PATH`.  `need_cfg` scans stdout and stderr combined;
the package lists scan stdout only.  `none` models the probe raising. -/
def check_update_parse (stdout_lines stderr_lines : List String) :
    Option (List String × List String × Nat) :=
  let combined := stdout_lines ++ stderr_lines
  let need_cfg : Nat := if combined.any configLine then 1 else 0
  (collectUpdates stdout_lines).map (fun bs => (bs.1, bs.2, need_cfg))

/-! ### Orphan probe parsing (`UpdateChecker.check_orphans`)

Transcription of `re.search` with the pattern
`(\b[a-zA-Z0-9-_]+/[a-zA-Z0-9-_]+):\s+([0-9]+(?:\.[0-9]+){0,4})(_[a-zA-Z0-9]+)?(-r[1-9][0-9]*)?`
followed by the group reassembly `g1 + "-" + g2 (+ g3) (+ g4)`.  Every
quantifier in the pattern is greedy and followed only by parts whose first
characters are disjoint from the quantified class, so maximal munch is
equivalent to the engine's backtracking search. -/

/-- `\w` — a regex word character (ASCII). -/
def isWordChar (c : Char) : Bool := c.isAlpha || c.isDigit || c == '_'

/-- `[a-zA-Z0-9-_]` — the category/name character class. -/
def isClassChar (c : Char) : Bool := c.isAlpha || c.isDigit || c == '-' || c == '_'

/-- `(?:\.[0-9]+){0,4}` with its remainder: at most `n` repetitions of a dot
followed by a nonempty digit run. -/
def dotDigits : Nat → List Char → (List Char × List Char)
  | 0, cs => ([], cs)
  | n + 1, cs =>
    match cs with
    | '.' :: cs2 =>
      let (ds, rest) := cs2.span Char.isDigit
      if ds.isEmpty then ([], cs)
      else
        let (more, rest2) := dotDigits n rest
        ('.' :: (ds ++ more), rest2)
    | _ => ([], cs)

/-- The optional `(_[a-zA-Z0-9]+)?` prerelease-suffix group. -/
def optionalSuffix (cs : List Char) : (List Char × List Char) :=
  match cs with
  | '_' :: cs2 =>
    let (as, rest) := cs2.span Char.isAlphanum
    if as.isEmpty then ([], cs) else ('_' :: as, rest)
  | _ => ([], cs)

/-- The optional `(-r[1-9][0-9]*)?` revision group. -/
def optionalRev (cs : List Char) : (List Char × List Char) :=
  match cs with
  | '-' :: 'r' :: d :: cs2 =>
    if '1' ≤ d ∧ d ≤ '9' then
      let (ds, rest) := cs2.span Char.isDigit
      ('-' :: 'r' :: d :: ds, rest)
    else ([], cs)
  | _ => ([], cs)

/-- Try to match the orphan pattern at the current position (the `\b` anchor
is checked by the caller) and, on success, return the reassembled
`f"{g1}-{g2}" (+ g3) (+ g4)` identifier. -/
def matchOrphanAt (cs : List Char) : Option String :=
  let (p1, r1) := cs.span isClassChar
  if p1.isEmpty then none
  else
    match r1 with
    | '/' :: r2 =>
      let (p2, r3) := r2.span isClassChar
      if p2.isEmpty then none
      else
        match r3 with
        | ':' :: r4 =>
          let (ws, r5) := r4.span isPyWhitespace
          if ws.isEmpty then none
          else
            let (d0, r6) := r5.span Char.isDigit
            if d0.isEmpty then none
            else
              let (dd, r7) := dotDigits 4 r6
              let (g3, r8) := optionalSuffix r7
              let (g4, _) := optionalRev r8
              some (String.mk (p1 ++ '/' :: p2 ++ '-' :: (d0 ++ dd) ++ g3 ++ g4))
        | _ => none
    | _ => none

/-- `\b` between the previous character (`none` at the start of the line) and
the current one. -/
def wordBoundary (prev : Option Char) (c : Char) : Bool :=
  (match prev with | none => false | some p => isWordChar p) != isWordChar c

/-- `re.search` of the orphan pattern over a line: leftmost position at which
the `\b`-anchored pattern matches. -/
def orphanSearch : Option Char → List Char → Option String
  | _, [] => none
  | prev, c :: rest =>
    match (if wordBoundary prev c then matchOrphanAt (c :: rest) else none) with
    | some r => some r
    | none => orphanSearch (some c) rest

/-- `UpdateChecker.check_orphans` parsing: the `rm_list` collected from the
depclean dry-run's stdout lines (pickled to `PKGREVD_PATH`). -/
def check_orphans_parse (stdout_lines : List String) : List String :=
  stdout_lines.foldr
    (fun line acc =>
      match orphanSearch none line.toList with
      | some r => r :: acc
      | none => acc)
    []

/-! ### Status engine (`UpdateChecker.get_status`) -/

/-- Outcome of the update probe step as seen by `get_status`: `check_update`
raises; the pickled worlddeps file cannot be read back; or it parses to a
binary list, a source list and the `need_cfg` flag. -/
inductive UpdOutcome where
  | raises : UpdOutcome
  | fileUnreadable : UpdOutcome
  | parsed : List String → List String → Nat → UpdOutcome

/-- Outcome of the orphan probe step: `check_orphans` raises; the pickled
pkgrevdeps file cannot be read back; or it parses to a removable list. -/
inductive OrphOutcome where
  | raises : OrphOutcome
  | fileUnreadable : OrphOutcome
  | parsed : List String → OrphOutcome

/-- `UpdateChecker.get_status`, with each probe's outcome as a parameter
(`online` is whether `check_internet` returned 1, `syncOk` whether
`emerge --sync` exited 0). -/
def get_status (online syncOk : Bool) (upd : UpdOutcome) (orph : OrphOutcome) :
    String :=
  if !online then "no_internet"
  else if !syncOk then "blocked_sync"
  else
    match upd with
    | .raises => "upgrade_check_failed"
    | .fileUnreadable => "upgrade_check_failed"
    | .parsed bin_list src_list need_cfg =>
      if need_cfg ≠ 0 then "blocked_upgrade"
      else if bin_list.length = 0 ∧ src_list.length = 0 then
        match orph with
        | .raises => "orphans_check_failed"
        | .fileUnreadable => "orphans_check_failed"
        | .parsed rm_list =>
          if rm_list.length = 0 then "up_to_date" else "orphans_detected"
      else "upgrade_detected"

/-! Specification-side cascade: the precedence rules as the spec words them,
an ordered rule list where the first matching condition wins. -/

/-- Spec wording: the update probe raises or its result is unreadable. -/
def updFails : UpdOutcome → Bool
  | .parsed _ _ _ => false
  | _ => true

/-- Spec wording: the configuration-blocked flag is set. -/
def updBlocked : UpdOutcome → Bool
  | .parsed _ _ c => c != 0
  | _ => false

/-- Spec wording: binary or source set non-empty. -/
def updNonempty : UpdOutcome → Bool
  | .parsed b s _ => !b.isEmpty || !s.isEmpty
  | _ => false

/-- Spec wording: the orphan probe fails. -/
def orphFails : OrphOutcome → Bool
  | .parsed _ => false
  | _ => true

/-- Spec wording: the removable set is non-empty. -/
def orphNonempty : OrphOutcome → Bool
  | .parsed rm => !rm.isEmpty
  | _ => false

/-- The spec's precedence rules in order, each a guard with its code. -/
def spec_rules (online syncOk : Bool) (upd : UpdOutcome) (orph : OrphOutcome) :
    List (Bool × String) :=
  [(!online, "no_internet"),
   (!syncOk, "blocked_sync"),
   (updFails upd, "upgrade_check_failed"),
   (updBlocked upd, "blocked_upgrade"),
   (updNonempty upd, "upgrade_detected"),
   (orphFails orph, "orphans_check_failed"),
   (orphNonempty orph, "orphans_detected")]

/-- Modelled from the spec's words: the first rule whose guard holds decides
the status, and `up_to_date` is returned when no rule matches. -/
def spec_status (online syncOk : Bool) (upd : UpdOutcome) (orph : OrphOutcome) :
    String :=
  match (spec_rules online syncOk upd orph).find? (fun r => r.1) with
  | some r => r.2
  | none => "up_to_date"

/-! ### Effect-tracking engine run, for the frame property -/

/-- Observable side effects of one `get_status` run, in program order:
the connectivity probe, the `emerge --sync` call, the `emerge` update
dry-run, the worlddeps pickle write/read, the depclean dry-run, and the
pkgrevdeps pickle write/read. -/
inductive Eff where
  | connectivity : Eff
  | sync : Eff
  | updateRun : Eff
  | writeWorlddeps : Eff
  | readWorlddeps : Eff
  | orphanRun : Eff
  | writePkgrevd : Eff
  | readPkgrevd : Eff
deriving DecidableEq

/-- `get_status` instrumented with the list of effects it performs, in
order.  A probe that raises has run its external command but not written its
pickle file; an unreadable pickle was written and then read. -/
def get_status_eff (online syncOk : Bool) (upd : UpdOutcome)
    (orph : OrphOutcome) : String × List Eff :=
  if !online then ("no_internet", [.connectivity])
  else if !syncOk then ("blocked_sync", [.connectivity, .sync])
  else
    match upd with
    | .raises => ("upgrade_check_failed", [.connectivity, .sync, .updateRun])
    | .fileUnreadable =>
      ("upgrade_check_failed",
       [.connectivity, .sync, .updateRun, .writeWorlddeps, .readWorlddeps])
    | .parsed bin_list src_list need_cfg =>
      let base : List Eff :=
        [.connectivity, .sync, .updateRun, .writeWorlddeps, .readWorlddeps]
      if need_cfg ≠ 0 then ("blocked_upgrade", base)
      else if bin_list.length = 0 ∧ src_list.length = 0 then
        match orph with
        | .raises => ("orphans_check_failed", base ++ [.orphanRun])
        | .fileUnreadable =>
          ("orphans_check_failed",
           base ++ [.orphanRun, .writePkgrevd, .readPkgrevd])
        | .parsed rm_list =>
          ((if rm_list.length = 0 then "up_to_date" else "orphans_detected"),
           base ++ [.orphanRun, .writePkgrevd, .readPkgrevd])
      else ("upgrade_detected", base)

/-! ### Listener suppression window (`SysTrayGui.is_ignored`, `hermes.py`)

The suppression state is the ignore file: `none` means the file is absent,
`some none` means it exists but reading it raises, `some (some c)` means it
holds content `c`.  Parsing the content transcribes Python's
`int(content.strip())`: surrounding whitespace, an optional sign, and digit
groups separated by single underscores. -/

/-- The digit part of Python `int(...)` after an optional sign: a nonempty
digit sequence in which each underscore is surrounded by digits. -/
def pyDigitsGo (acc : Nat) : List Char → Option Nat
  | [] => some acc
  | ['_'] => none
  | '_' :: d :: rest =>
    if d.isDigit then pyDigitsGo (acc * 10 + (d.toNat - 48)) rest else none
  | d :: rest =>
    if d.isDigit then pyDigitsGo (acc * 10 + (d.toNat - 48)) rest else none

/-- A nonempty underscore-grouped digit literal, as accepted by `int`. -/
def pyDigitsVal : List Char → Option Nat
  | [] => none
  | c :: rest => if c.isDigit then pyDigitsGo (c.toNat - 48) rest else none

/-- Python `int(s)` on a decimal string literal; `none` models `ValueError`. -/
def pyInt (s : String) : Option Int :=
  match pyStrip s.toList with
  | '+' :: rest => (pyDigitsVal rest).map (fun n => (n : Int))
  | '-' :: rest => (pyDigitsVal rest).map (fun n => -(n : Int))
  | cs => (pyDigitsVal cs).map (fun n => (n : Int))

/-- `SysTrayGui.is_ignored`: absent file, unreadable file and unparseable
content all yield `false`; otherwise the window is active exactly while
`time.time() < expiry`. -/
def is_ignored (ws : Option (Option String)) (now : Int) : Bool :=
  match ws with
  | none => false
  | some none => false
  | some (some content) =>
    match pyInt (pyStripString content) with
    | none => false
    | some expiry => decide (now < expiry)

/-- `SysTrayGui.handle_message`: the notification (title, body) displayed for
a status broadcast, or `none` when nothing is shown.  The four failure codes
are shown unconditionally; the four informational codes consult
`is_ignored`; unknown codes fall through silently.  (The code also restarts
the heartbeat timer first — modelled separately by `deadlineAt`.) -/
def handle_message (ws : Option (Option String)) (now : Int)
    (message : String) : Option (String × String) :=
  if message = "no_internet" then
    some ("No Internet", "Cannot check for updates.")
  else if message = "blocked_sync" then
    some ("Sync Failed", "Could not sync portage tree and overlays.")
  else if message = "upgrade_check_failed" then
    some ("Check Failed", "Could not check for system upgrade.")
  else if message = "orphan_check_failed" then
    some ("Check Failed", "Could not check for orphaned packages.")
  else if message = "blocked_upgrade" then
    (if !is_ignored ws now then
      some ("Blocked Upgrade", "Upgrade blocked by portage configuration.")
    else none)
  else if message = "orphans_detected" then
    (if !is_ignored ws now then
      some ("Orphans Detected", "System up to date, orphaned packages found.")
    else none)
  else if message = "upgrade_detected" then
    (if !is_ignored ws now then
      some ("System Upgrade", "System upgrade available.")
    else none)
  else if message = "up_to_date" then
    (if !is_ignored ws now then
      some ("Up to date", "System is up to date.")
    else none)
  else none

/-- The four suppressible codes: the branches of `handle_message` guarded by
`is_ignored`. -/
def suppressibleCodes : List String :=
  ["blocked_upgrade", "orphans_detected", "upgrade_detected", "up_to_date"]

/-- The four always-notify codes handled by the listener. -/
def alwaysNotifyCodes : List String :=
  ["no_internet", "blocked_sync", "upgrade_check_failed", "orphan_check_failed"]

/-! ### Listener heartbeat timer

`heartbeat_timer` is a repeating `QTimer` with interval `T`, started at
listener startup (time 0) and restarted by `handle_message` and
`handle_heartbeat`; on timeout it fires `missed_heartbeat` and, being a
repeating timer, re-arms itself.  Time is discrete; `b t` says whether a
broadcast (status message or heartbeat) is received at instant `t`; a
broadcast arriving at the same instant as the timeout is processed first. -/

/-- The timer's expiry instant as it stands when instant `t` is about to be
processed: a broadcast at `t`, or the timer firing at `t`, re-arms it to
`t + T`. -/
def deadlineAt (b : Nat → Bool) (T : Nat) : Nat → Nat
  | 0 => T
  | t + 1 =>
    if b t || decide (t = deadlineAt b T t) then t + T else deadlineAt b T t

/-- `missed_heartbeat` runs at instant `t`: no broadcast arrives at `t` and
the timer expires exactly then. -/
def firesAt (b : Nat → Bool) (T t : Nat) : Bool :=
  !b t && decide (t = deadlineAt b T t)

/-! ### Daemon task scheduling (`HermesDaemon._send_periodic` / `_send_heartbeat`)

A GLib timeout source dispatches its callback when due; if the callback
returns `True` the source stays installed, if `False` it is removed.  Both
daemon callbacks call `GLib.timeout_add_seconds` on themselves (installing
one more source) *and* return `True`. -/

/-- Number of installed sources after one source fires, given how many new
sources the callback installs and whether it returns `True`. -/
def glib_fire (pending added : Nat) (cont : Bool) : Nat :=
  (pending - 1) + added + (if cont then 1 else 0)

/-- Installed `_send_periodic` sources after `k` timeout firings.  `run()`
calls `_send_periodic()` directly once, which installs the first source;
each later firing installs one more source and returns `True`. -/
def send_periodic_pending : Nat → Nat
  | 0 => 1
  | k + 1 => glib_fire (send_periodic_pending k) 1 true

/-- Installed `_send_heartbeat` sources after `k` timeout firings; the
callback has the same shape as `_send_periodic`. -/
def send_heartbeat_pending : Nat → Nat
  | 0 => 1
  | k + 1 => glib_fire (send_heartbeat_pending k) 1 true

/-! ## Theorems -/

/-- C8: applying the orphan-probe pattern to the depclean dry-run line
`"dev-libs/foo: 1.2.3-r1"` yields exactly the one removable identifier
`"dev-libs/foo-1.2.3-r1"` — category/name, a `-`, the version, and the
revision suffix. -/
theorem orphan_line_parse :
    check_orphans_parse ["dev-libs/foo: 1.2.3-r1"] = ["dev-libs/foo-1.2.3-r1"] := by
  decide

/-- C2 (failing part, evaluated on the code): when the orphan probe fails the
engine emits the code `"orphans_check_failed"`, but the listener's message
handler only recognises `"orphan_check_failed"`, so the broadcast falls
through every branch and produces no notification even with no suppression
window — while the code the listener does recognise is never emitted. -/
theorem orphan_failure_code_never_displayed :
    get_status true true (UpdOutcome.parsed [] [] 0) OrphOutcome.raises =
      "orphans_check_failed" ∧
    (∀ ws now, handle_message ws now "orphans_check_failed" = none) ∧
    handle_message none 0 "orphan_check_failed" =
      some ("Check Failed", "Could not check for orphaned packages.") :=
  ⟨rfl, fun _ _ => rfl, rfl⟩

/-- C9 (failing part, evaluated on the code): each daemon task callback both
re-adds itself with `GLib.timeout_add_seconds` and returns `True` (keeping
its old source installed), so after the first timeout firing there are two
pending invocations, and `k + 1` after `k` firings — not the single pending
invocation the claim states. -/
theorem periodic_task_duplication :
    send_periodic_pending 1 = 2 ∧ send_heartbeat_pending 1 = 2 ∧
    (∀ k, send_periodic_pending k = k + 1) ∧
    (∀ k, send_heartbeat_pending k = k + 1) := by
  refine ⟨rfl, rfl, ?_, ?_⟩ <;> intro k <;> induction k <;>
    simp [send_periodic_pending, send_heartbeat_pending, glib_fire, *]

/-- C4: dry-run output with one `[binary` line, one `[ebuild` line and one
`REQUIRED_USE flag constraints are unsatisfied` line parses to exactly one
binary entry, one source entry and `need_cfg = 1`; fed that result, the
engine returns `blocked_upgrade` regardless of the orphan probe, i.e. the
configuration block takes precedence over the non-empty update sets. -/
theorem update_parse_blocked_upgrade :
    check_update_parse
        ["[binary   R    ] app-editors/nano-7.2 [7.1]",
         "[ebuild   U  ] dev-lang/python-3.12.8 [3.12.7]",
         "REQUIRED_USE flag constraints are unsatisfied"] [] =
      some (["app-editors/nano-7.2"], ["dev-lang/python-3.12.8"], 1) ∧
    (∀ orph, get_status true true
        (UpdOutcome.parsed ["app-editors/nano-7.2"] ["dev-lang/python-3.12.8"] 1)
        orph = "blocked_upgrade") :=
  ⟨by decide, fun _ => rfl⟩

/-- C6: when the connectivity probe fails, `get_status` returns
`no_internet` having performed no effect beyond the connectivity probe
itself: no sync, update or orphan command runs, and neither intermediate
pickle file is written. -/
theorem no_internet_frame (syncOk : Bool) (upd : UpdOutcome) (orph : OrphOutcome) :
    get_status_eff false syncOk upd orph = ("no_internet", [Eff.connectivity]) :=
  rfl

/-- C1: over every combination of probe outcomes, the engine's nested
conditionals compute exactly the spec's top-to-bottom first-match cascade,
so exactly one status code is produced, by the documented precedence. -/
theorem engine_precedence_first_match (online syncOk : Bool) (upd : UpdOutcome)
    (orph : OrphOutcome) :
    get_status online syncOk upd orph = spec_status online syncOk upd orph := by
  cases upd with
  | raises => cases online <;> cases syncOk <;> cases orph <;> rfl
  | fileUnreadable => cases online <;> cases syncOk <;> cases orph <;> rfl
  | parsed bin src cfg =>
    cases orph with
    | raises =>
      cases online <;> cases syncOk <;> cases cfg <;> cases bin <;>
        cases src <;> rfl
    | fileUnreadable =>
      cases online <;> cases syncOk <;> cases cfg <;> cases bin <;>
        cases src <;> rfl
    | parsed rm =>
      cases online <;> cases syncOk <;> cases cfg <;> cases bin <;>
        cases src <;> cases rm <;> rfl

/-- C7: `check_internet` returns 1 exactly when the attempt on the
effectively-probed url does not fail at transport level (HTTP error
responses included), 0 exactly on transport failure; an absent or
regex-invalid url makes the probe target the hardcoded default endpoint,
while a nonempty valid url is probed as given. -/
theorem check_internet_classification (world : String → NetOutcome)
    (url : Option String) :
    (check_internet world url = 1 ↔
      world (effective_url url) ≠ NetOutcome.urlError) ∧
    (check_internet world url = 0 ↔
      world (effective_url url) = NetOutcome.urlError) ∧
    effective_url none = DEFAULT_URL ∧
    (∀ u, is_valid_url u = false → effective_url (some u) = DEFAULT_URL) ∧
    (∀ u, u ≠ "" → is_valid_url u = true → effective_url (some u) = u) := by
  refine ⟨?_, ?_, rfl, ?_, ?_⟩
  · cases h : world (effective_url url) <;> simp [check_internet, h]
  · cases h : world (effective_url url) <;> simp [check_internet, h]
  · intro u hu; simp [effective_url, hu]
  · intro u hu hv; simp [effective_url, hu, hv]

/-- Witness for C7 at concrete inputs. -/
theorem check_internet_classification_witness :
    check_internet (fun _ => NetOutcome.urlError) none = 0 ∧
    effective_url (some "not a url") = DEFAULT_URL ∧
    effective_url (some "https://gentoo.org") = "https://gentoo.org" := by
  obtain ⟨-, h2, -, h4, h5⟩ :=
    check_internet_classification (fun _ => NetOutcome.urlError) none
  exact ⟨h2.mpr rfl, h4 "not a url" (by decide),
    h5 "https://gentoo.org" (by decide) (by decide)⟩

/-- `handle_message` reads the suppression state only through `is_ignored`. -/
theorem handle_message_ignored_congr (ws₁ ws₂ : Option (Option String))
    (now₁ now₂ : Int) (h : is_ignored ws₁ now₁ = is_ignored ws₂ now₂)
    (msg : String) :
    handle_message ws₁ now₁ msg = handle_message ws₂ now₂ msg := by
  unfold handle_message
  rw [h]

/-- C10: a suppression-window file that exists but is unreadable, or whose
content does not parse as an integer, makes `is_ignored` return false, so
every status is displayed exactly as if no window existed. -/
theorem corrupt_window_fails_open (now : Int) (s : String)
    (hs : pyInt (pyStripString s) = none) :
    is_ignored (some none) now = false ∧
    is_ignored (some (some s)) now = false ∧
    (∀ msg, handle_message (some (some s)) now msg =
      handle_message none now msg) ∧
    (∀ msg, handle_message (some none) now msg =
      handle_message none now msg) := by
  have h1 : is_ignored (some (some s)) now = false := by simp [is_ignored, hs]
  refine ⟨rfl, h1, fun msg => ?_, fun msg => ?_⟩
  · exact handle_message_ignored_congr _ _ _ _ (by rw [h1]; rfl) msg
  · exact handle_message_ignored_congr _ _ _ _ rfl msg

/-- Witness for C10 at a concrete corrupt window. -/
theorem corrupt_window_fails_open_witness :
    is_ignored (some (some "garbage")) 0 = false ∧
    handle_message (some (some "garbage")) 0 "up_to_date" =
      handle_message none 0 "up_to_date" := by
  obtain ⟨-, h2, h3, -⟩ := corrupt_window_fails_open 0 "garbage" (by decide)
  exact ⟨h2, h3 "up_to_date"⟩

/-- C3: with a window whose parsed expiry is at or before the current time
the listener handles every suppressible code exactly as with no window at
all; with an expiry strictly in the future exactly the four suppressible
codes are suppressed (each would display without the window), and every
other code — the always-notify codes included — is handled exactly as with
no window. -/
theorem listener_suppression_window (now : Int) (s : String) (e : Int)
    (hp : pyInt (pyStripString s) = some e) :
    (e ≤ now → ∀ msg, handle_message (some (some s)) now msg =
      handle_message none now msg) ∧
    (now < e →
      (∀ msg, msg ∈ suppressibleCodes →
        handle_message (some (some s)) now msg = none ∧
        handle_message none now msg ≠ none) ∧
      (∀ msg, msg ∉ suppressibleCodes →
        handle_message (some (some s)) now msg =
          handle_message none now msg)) := by
  have hig : is_ignored (some (some s)) now = decide (now < e) := by
    simp [is_ignored, hp]
  constructor
  · intro hle msg
    apply handle_message_ignored_congr
    rw [hig]
    simp [is_ignored]
    omega
  · intro hlt
    have hig' : is_ignored (some (some s)) now = true := by
      rw [hig]; exact decide_eq_true hlt
    constructor
    · intro msg hmsg
      simp only [suppressibleCodes, List.mem_cons, List.not_mem_nil,
        or_false] at hmsg
      rcases hmsg with rfl | rfl | rfl | rfl <;>
        exact ⟨by simp [handle_message, hig'], by simp [handle_message, is_ignored]⟩
    · intro msg hmsg
      simp only [suppressibleCodes, List.mem_cons, List.not_mem_nil, or_false,
        not_or] at hmsg
      obtain ⟨h1, h2, h3, h4⟩ := hmsg
      by_cases e1 : msg = "no_internet"
      · simp [handle_message, e1]
      by_cases e2 : msg = "blocked_sync"
      · simp [handle_message, e2]
      by_cases e3 : msg = "upgrade_check_failed"
      · simp [handle_message, e3]
      by_cases e4 : msg = "orphan_check_failed"
      · simp [handle_message, e4]
      simp [handle_message, e1, e2, e3, e4, h1, h2, h3, h4]

/-- Witness for C3 at concrete windows, times and codes. -/
theorem listener_suppression_window_witness :
    handle_message (some (some "100")) 50 "up_to_date" = none ∧
    handle_message (some (some "100")) 150 "up_to_date" =
      handle_message none 150 "up_to_date" := by
  obtain ⟨-, h⟩ := listener_suppression_window 50 "100" 100 (by decide)
  obtain ⟨ha, -⟩ := h (by decide)
  obtain ⟨hb, -⟩ := listener_suppression_window 150 "100" 100 (by decide)
  exact ⟨(ha "up_to_date" (by decide)).1, hb (by decide) "up_to_date"⟩

/-- The timer's expiry never lies further than one interval ahead. -/
theorem deadlineAt_ub (b : Nat → Bool) (T : Nat) :
    ∀ t, deadlineAt b T t ≤ t + T := by
  intro t
  induction t with
  | zero => simp [deadlineAt]
  | succ u ih =>
    simp only [deadlineAt]
    split
    · omega
    · omega

/-- The timer's expiry instant never decreases over time. -/
theorem deadlineAt_mono (b : Nat → Bool) (T : Nat) (t : Nat) :
    deadlineAt b T t ≤ deadlineAt b T (t + 1) := by
  have hub := deadlineAt_ub b T t
  simp only [deadlineAt]
  split
  · omega
  · exact le_refl _

/-- Monotonicity of the expiry instant, for arbitrary gaps. -/
theorem deadlineAt_mono_le (b : Nat → Bool) (T : Nat) {s t : Nat}
    (h : s ≤ t) : deadlineAt b T s ≤ deadlineAt b T t := by
  induction h with
  | refl => exact le_refl _
  | step h ih => exact le_trans ih (deadlineAt_mono b T _)

/-- A broadcast at `t`, or the timer firing at `t`, re-arms the timer to
expire at `t + T`. -/
theorem deadlineAt_reset (b : Nat → Bool) (T t : Nat)
    (h : b t = true ∨ t = deadlineAt b T t) :
    deadlineAt b T (t + 1) = t + T := by
  rcases h with h | h
  · simp [deadlineAt, h]
  · have hd : decide (t = deadlineAt b T t) = true := decide_eq_true h
    simp [deadlineAt, hd]

/-- While no broadcast arrives and the expiry is not yet reached, the expiry
stays put. -/
theorem deadlineAt_stay (b : Nat → Bool) (T r : Nat)
    (hset : deadlineAt b T (r + 1) = r + T) :
    ∀ d, r + 1 + d ≤ r + T →
      (∀ t, r < t → t < r + 1 + d → b t = false) →
      deadlineAt b T (r + 1 + d) = r + T := by
  intro d
  induction d with
  | zero => intro _ _; simpa using hset
  | succ d ih =>
    intro hle hq
    have hd : deadlineAt b T (r + 1 + d) = r + T :=
      ih (by omega) (fun t h1 h2 => hq t h1 (by omega))
    have hb : b (r + 1 + d) = false := hq _ (by omega) (by omega)
    have hstep : r + 1 + (d + 1) = (r + 1 + d) + 1 := by omega
    rw [hstep]
    simp only [deadlineAt]
    rw [if_neg]
    · exact hd
    · simp only [hb, Bool.false_or, decide_eq_true_eq, hd]
      omega

/-- C5: modelling the listener, one discrete instant at a time, with `b t`
saying whether a broadcast of either kind (status message or heartbeat)
arrives at `t`: every broadcast re-arms the one-shot deadline to now plus
the timeout `T`; and from any re-arm instant `r` (startup, a broadcast, or a
previous firing), the liveness notification fires within the next interval
`(r, r + T]` exactly when no broadcast of either kind arrives in that
interval, and any such firing happens exactly at the deadline `r + T` — once
per missed interval. -/
theorem heartbeat_timeout_iff_quiet (b : Nat → Bool) (T r : Nat) (hT : 0 < T)
    (hr : r = 0 ∨ b r = true ∨ firesAt b T r = true) :
    (∀ t, b t = true → deadlineAt b T (t + 1) = t + T) ∧
    ((∃ t, r < t ∧ t ≤ r + T ∧ firesAt b T t = true) ↔
      (∀ t, r < t → t ≤ r + T → b t = false)) ∧
    (∀ t, r < t → t ≤ r + T → firesAt b T t = true → t = r + T) := by
  have hset : deadlineAt b T (r + 1) = r + T := by
    rcases hr with rfl | h | h
    · by_cases hb : b 0 = true
      · exact deadlineAt_reset b T 0 (Or.inl hb)
      · have hb' : b 0 = false := by revert hb; cases b 0 <;> simp
        have h0T : ¬((0 : Nat) = T) := by omega
        simp [deadlineAt, hb', h0T]
    · exact deadlineAt_reset b T r (Or.inl h)
    · simp only [firesAt, Bool.and_eq_true, Bool.not_eq_true',
        decide_eq_true_eq] at h
      exact deadlineAt_reset b T r (Or.inr h.2)
  have key : ∀ t, r < t → t ≤ r + T → firesAt b T t = true →
      t = r + T ∧ ∀ q, r < q → q ≤ r + T → b q = false := by
    intro t h1 h2 hf
    simp only [firesAt, Bool.and_eq_true, Bool.not_eq_true',
      decide_eq_true_eq] at hf
    obtain ⟨hbt, hdt⟩ := hf
    have hquiet : ∀ q, r < q → q < t → b q = false := by
      intro q hq1 hq2
      by_contra hq
      have hbq : b q = true := by revert hq; cases b q <;> simp
      have h3 : deadlineAt b T (q + 1) = q + T :=
        deadlineAt_reset b T q (Or.inl hbq)
      have h4 : deadlineAt b T (q + 1) ≤ deadlineAt b T t :=
        deadlineAt_mono_le b T (by omega)
      rw [h3, ← hdt] at h4
      omega
    have hd : deadlineAt b T t = r + T := by
      have ht' : t = r + 1 + (t - r - 1) := by omega
      rw [ht']
      exact deadlineAt_stay b T r hset (t - r - 1) (by omega)
        (fun q hq1 hq2 => hquiet q hq1 (by omega))
    have ht : t = r + T := by rw [hdt, hd]
    refine ⟨ht, fun q hq1 hq2 => ?_⟩
    rcases Nat.lt_or_ge q t with hlt | hge
    · exact hquiet q hq1 hlt
    · have hqt : q = t := by omega
      rw [hqt]; exact hbt
  refine ⟨fun t ht => deadlineAt_reset b T t (Or.inl ht), ?_,
    fun t h1 h2 hf => (key t h1 h2 hf).1⟩
  constructor
  · rintro ⟨t, h1, h2, hf⟩
    exact (key t h1 h2 hf).2
  · intro hq
    refine ⟨r + T, by omega, le_refl _, ?_⟩
    have hd : deadlineAt b T (r + T) = r + T := by
      have hd' : deadlineAt b T (r + 1 + (T - 1)) = r + T :=
        deadlineAt_stay b T r hset (T - 1) (by omega)
          (fun q h1 h2 => hq q h1 (by omega))
      have ht'' : r + 1 + (T - 1) = r + T := by omega
      rw [ht''] at hd'
      exact hd'
    have hb : b (r + T) = false := hq (r + T) (by omega) (le_refl _)
    simp [firesAt, hd, hb]

/-- Witness for C5 on a broadcast-free trace: with timeout 2 and re-arm
instant 0, the liveness notification fires at instant 2. -/
theorem heartbeat_timeout_iff_quiet_witness :
    firesAt (fun _ => false) 2 2 = true := by
  obtain ⟨-, hiff, huniq⟩ :=
    heartbeat_timeout_iff_quiet (fun _ => false) 2 0 (by decide) (Or.inl rfl)
  obtain ⟨t, h1, h2, h3⟩ := hiff.mpr (fun t _ _ => rfl)
  have ht : t = 0 + 2 := huniq t h1 h2 h3
  rw [ht] at h3
  simpa using h3
